import Mathlib

/-
  Verification development for the icebox submission-archive pipeline.

  The definitions below are a shallow embedding of the TypeScript source:
  - src/unnamed/part_000            (archive worker, SQS handler)
  - src/backend/src/lib/archive.ts  (createZipArchive)
  - src/backend/src/functions/getDownloadUrl.ts (download resolution handler)
  plus one definition modelled from the specification for the completion
  endpoint that marks PENDING_ARCHIVE and enqueues the archive job, whose
  source file is not part of the provided sources.

  JavaScript optional/nullable fields are embedded as Option; the JS
  nullish-coalescing operator (a ?? b) is Option.getD, while JS truthiness
  of an optional string (falsy for undefined, null and the empty string)
  is the predicate falsyStr below.  Wall-clock reads (Date.now) and uuid()
  calls are embedded as environment-supplied sequences indexed by call
  order.  External collaborators (DynamoDB record store, S3 object store,
  SES sender) are embedded as explicit state plus a trace of actions.
-/

namespace Icebox

/-- A stored submission file, as read from the record store
    (part_000 SubmissionFile / part_013 SubmissionFileRecord). -/
structure SubmissionFile where
  fileName : Option String
  contentType : Option String
  size : Option Nat
  objectKey : String
  downloadToken : Option String
  expiresAt : Option String
deriving Repr, DecidableEq

/-- A submission record, as stored in the assignments table
    (part_000 SubmissionRecord plus the access bookkeeping fields
    read by getDownloadUrl.ts). -/
structure SubmissionRecord where
  submissionId : String
  status : Option String
  courseId : Option String
  comment : Option String
  studentEmail : Option String
  studentName : Option String
  studentId : Option String
  educatorEmails : Option (List String)
  files : Option (List SubmissionFile)
  downloadBaseUrl : Option String
  lastError : Option String
  completedAt : Option String
  updatedAt : Option String
  firstAccessedAt : Option String
  lastAccessedAt : Option String
deriving Repr, DecidableEq

/-- A course row from the courses table, as read for notifications. -/
structure CourseRow where
  courseName : Option String
  educatorEmail : Option String
  educatorName : Option String
deriving Repr, DecidableEq

/-- The queue message consumed by the archive worker
    (part_000 QueueMessage). -/
structure QueueMessage where
  submissionId : Option String
  requestedAt : Option String
  downloadBaseUrl : Option String
deriving Repr, DecidableEq

/-- JS truthiness test for an optional string: undefined, null and the
    empty string are falsy. -/
def falsyStr : Option String → Bool
  | none => true
  | some s => s.isEmpty

/-- The record store (assignments table), keyed by submissionId. -/
abbrev RecordStore := List (String × SubmissionRecord)

/-- The object store, modelled as the list of keys currently present. -/
abbrev ObjectStore := List String

/-- GetCommand on the record store. -/
def lookupRecord : RecordStore → String → Option SubmissionRecord
  | [], _ => none
  | (k, r) :: rest, id => if k = id then some r else lookupRecord rest id

/-- UpdateCommand on the record store, applied to the entry with the
    given key (the worker and download handler only update records they
    have just read). -/
def updateRecord : RecordStore → String → (SubmissionRecord → SubmissionRecord) → RecordStore
  | [], _, _ => []
  | (k, r) :: rest, id, f =>
      (if k = id then (k, f r) else (k, r)) :: updateRecord rest id f

/-- One observable collaborator call made by a handler. -/
inductive Action where
  | dynGet (table : String) (key : String)
  | dynUpdate (table : String) (key : String)
  | s3Get (key : String)
  | s3Put (key : String)
  | s3Head (key : String)
  | s3Delete (keys : List String)
  | s3Presign (key : String) (ttlSeconds : Nat)
  | sesSend (recipients : List String)
deriving Repr, DecidableEq

/-- True for record-store mutations. -/
def Action.isRecordUpdate : Action → Bool
  | .dynUpdate _ _ => true
  | _ => false

/-- True for object-store calls of any kind. -/
def Action.isObjectStoreCall : Action → Bool
  | .s3Get _ => true
  | .s3Put _ => true
  | .s3Head _ => true
  | .s3Delete _ => true
  | .s3Presign _ _ => true
  | _ => false

/-- True for notification sends. -/
def Action.isNotification : Action → Bool
  | .sesSend _ => true
  | _ => false

/-- Placeholder for the ASSIGNMENTS_TABLE environment value. -/
def assignmentsTable : String := "ASSIGNMENTS_TABLE"

/-- Placeholder for the COURSES_TABLE environment value. -/
def coursesTable : String := "COURSES_TABLE"

/- ------------------------------------------------------------------
   src/backend/src/lib/archive.ts : createZipArchive
   ------------------------------------------------------------------ -/

/-- The file shape passed into createZipArchive (archive.ts StoredFile). -/
structure StoredFile where
  fileName : Option String
  contentType : Option String
  size : Option Nat
  objectKey : String
deriving Repr, DecidableEq

/-- The name used for a file inside the archive before prefixing:
    file.fileName ?? file.objectKey. -/
def effectiveName (f : StoredFile) : String :=
  f.fileName.getD f.objectKey

/-- archive.ts line 72: files.some(f => (f.fileName ?? f.objectKey).includes(slash));
    substring containment of the one-character separator is membership of
    that character in the string. -/
def hasNestedFolders (files : List StoredFile) : Bool :=
  files.any (fun f => (effectiveName f).data.contains '/')

/-- archive.ts line 73: const pfx = hasNestedFolders ? submissionId : undefined. -/
def zipPfx (submissionId : String) (files : List StoredFile) : Option String :=
  if hasNestedFolders files then some submissionId else none

/-- archive.ts line 84: pfx ? pfx + slash + originalName : originalName.
    A present but empty string pfx is falsy in JS, hence unused. -/
def entryName (pfx : Option String) (f : StoredFile) : String :=
  match pfx with
  | some p => if p.isEmpty then effectiveName f else p ++ "/" ++ effectiveName f
  | none => effectiveName f

/-- The archive entry names produced by createZipArchive, in input order. -/
def zipEntryNames (submissionId : String) (files : List StoredFile) : List String :=
  files.map (entryName (zipPfx submissionId files))

/-- archive.ts line 101: head.ContentLength ?? files.reduce(acc + (size ?? 0), 0). -/
def archiveSizeResult (headContentLength : Option Nat) (files : List StoredFile) : Nat :=
  headContentLength.getD (files.foldl (fun acc f => acc + f.size.getD 0) 0)

/-- The observable outcome of createZipArchive: the size it returns, the
    entry names it appended, the object store afterwards, and the trace of
    object-store calls it made. -/
structure ZipResult where
  size : Nat
  entries : List String
  objects : ObjectStore
  actions : List Action
deriving Repr, DecidableEq

/-- Shallow embedding of createZipArchive (archive.ts lines 46-102): one
    GetObject per input file, the streamed upload of the archive object,
    a HeadObject on it, and the returned size with its fallback.
    headContentLength stands for head.ContentLength, which the S3 model
    leaves abstract because the compressed size is not computable here. -/
def createZipArchive (submissionId : String) (archiveKey : String)
    (files : List StoredFile) (headContentLength : Option Nat)
    (os : ObjectStore) : ZipResult :=
  { size := archiveSizeResult headContentLength files
    entries := zipEntryNames submissionId files
    objects := archiveKey :: os
    actions := files.map (fun f => Action.s3Get f.objectKey)
      ++ [Action.s3Put archiveKey, Action.s3Head archiveKey] }

/- ------------------------------------------------------------------
   src/unnamed/part_000 : the archive worker (SQS handler body)
   ------------------------------------------------------------------ -/

/-- part_000 line 40: 28 days in milliseconds. -/
def DEFAULT_EXPIRY_MS : Nat := 28 * 24 * 60 * 60 * 1000

/-- part_000 lines 91-107: lazily assign downloadToken and expiresAt.
    The nullish coalescing keeps any present value, even an empty string,
    while the falsy check drives filesNeedUpdate; uuid() is consumed only
    for files whose downloadToken is nullish.  Returns the rewritten list,
    the filesNeedUpdate flag, and the next uuid index. -/
def tokenizeFiles (uuidSeq : Nat → String) (defaultExpiry : String) :
    Nat → List SubmissionFile → List SubmissionFile × Bool × Nat
  | u, [] => ([], false, u)
  | u, f :: rest =>
      let tok := f.downloadToken.getD (uuidSeq u)
      let u1 := if f.downloadToken.isSome then u else u + 1
      let exp := f.expiresAt.getD defaultExpiry
      let flag := falsyStr f.downloadToken || falsyStr f.expiresAt
      let res := tokenizeFiles uuidSeq defaultExpiry u1 rest
      (⟨f.fileName, f.contentType, f.size, f.objectKey, some tok, some exp⟩ :: res.1,
       flag || res.2.1, res.2.2)

/-- Environment of one archive-worker invocation: uuid() results by call
    order, Date.now() results by call order, ISO rendering of a time, the
    optional SES_SOURCE_EMAIL, the ContentLength reported by HeadObject
    for the uploaded archive, and the courses-table contents. -/
structure WorkerEnv where
  uuidSeq : Nat → String
  timeSeq : Nat → Nat
  iso : Nat → String
  sesSource : Option String
  zipHeadSize : Option Nat
  courseRow : String → Option CourseRow

/-- Outcome of processing one queue record: stores afterwards, the trace
    of collaborator calls, and whether the error was re-raised. -/
structure WorkerResult where
  records : RecordStore
  objects : ObjectStore
  actions : List Action
  threw : Bool
deriving Repr, DecidableEq

/-- part_000 lines 152-319: after the files are final, write the
    COMPLETED update (REMOVE lastError always; SET files only when
    filesNeedUpdate), then resolve notification recipients and send the
    completion emails.  Returns the record store afterwards and the
    actions from the UpdateCommand onward. -/
def completionTail (env : WorkerEnv) (msg : QueueMessage) (sub : SubmissionRecord)
    (sid : String) (finalFiles : List SubmissionFile) (filesNeedUpdate : Bool)
    (completedAt : String) (db : RecordStore) : RecordStore × List Action :=
  let db2 := updateRecord db sid (fun r =>
    let r1 := { r with status := some "COMPLETED", completedAt := some completedAt,
                       updatedAt := some completedAt, lastError := none }
    if filesNeedUpdate then { r1 with files := some finalFiles } else r1)
  let baseUrl := match msg.downloadBaseUrl with
    | some b => some b
    | none => sub.downloadBaseUrl
  let haveResources := !falsyStr baseUrl
  let courseId := sub.courseId.getD ""
  let courseActs : List Action :=
    if courseId.isEmpty then [] else [Action.dynGet coursesTable courseId]
  let courseDetails := if courseId.isEmpty then none else env.courseRow courseId
  let notifyActs : List Action :=
    if !falsyStr env.sesSource && haveResources then
      let studentActs : List Action :=
        if falsyStr sub.studentEmail then []
        else [Action.sesSend [sub.studentEmail.getD ""]]
      let eduList := (sub.educatorEmails.getD []).filter (fun e => !e.isEmpty)
      let courseEdu := match courseDetails with
        | some row => row.educatorEmail
        | none => none
      let resolved := if eduList.isEmpty then
          (if falsyStr courseEdu then [] else [courseEdu.getD ""])
        else eduList
      let eduActs : List Action :=
        if resolved.isEmpty then [] else [Action.sesSend resolved]
      studentActs ++ eduActs
    else []
  (db2, [Action.dynUpdate assignmentsTable sid] ++ courseActs ++ notifyActs)

/-- Shallow embedding of the per-record body of the archive worker
    (part_000 lines 52-329).  The body argument is the JSON.parse result
    of the SQS record body; none stands for a parse failure, which hits
    the catch block before a submissionId is known and re-raises. -/
def processMessage (env : WorkerEnv) (body : Option QueueMessage)
    (db : RecordStore) (os : ObjectStore) : WorkerResult :=
  match body with
  | none => { records := db, objects := os, actions := [], threw := true }
  | some msg =>
    if falsyStr msg.submissionId then
      { records := db, objects := os, actions := [], threw := false }
    else
      let sid := msg.submissionId.getD ""
      let getAct := [Action.dynGet assignmentsTable sid]
      match lookupRecord db sid with
      | none => { records := db, objects := os, actions := getAct, threw := false }
      | some sub =>
        if sub.status = some "COMPLETED" then
          { records := db, objects := os, actions := getAct, threw := false }
        else
          let storedFiles := sub.files.getD []
          if storedFiles = [] then
            let ts := env.iso (env.timeSeq 0)
            { records := updateRecord db sid (fun r =>
                { r with status := some "ARCHIVE_FAILED",
                         lastError := some "No files available for archiving",
                         updatedAt := some ts })
              objects := os
              actions := getAct ++ [Action.dynUpdate assignmentsTable sid]
              threw := false }
          else
            let defaultExpiry := env.iso (env.timeSeq 0 + DEFAULT_EXPIRY_MS)
            let tk := tokenizeFiles env.uuidSeq defaultExpiry 0 storedFiles
            let filesWithTokens := tk.1
            if filesWithTokens.length > 1 then
              let archiveKey := "archives/" ++ sid ++ "-" ++ toString (env.timeSeq 1) ++ ".zip"
              let archiveToken := env.uuidSeq tk.2.2
              let zr := createZipArchive sid archiveKey
                (filesWithTokens.map (fun f => ⟨f.fileName, f.contentType, f.size, f.objectKey⟩))
                env.zipHeadSize os
              let delKeys := filesWithTokens.map (fun f => f.objectKey)
              let os2 : ObjectStore := zr.objects.filter (fun k => !delKeys.contains k)
              let finalFiles : List SubmissionFile :=
                [⟨some (sid ++ ".zip"), some "application/zip", some zr.size,
                  archiveKey, some archiveToken, some defaultExpiry⟩]
              let completedAt := env.iso (env.timeSeq 2)
              let tail := completionTail env msg sub sid finalFiles true completedAt db
              { records := tail.1, objects := os2
                actions := getAct ++ zr.actions ++ [Action.s3Delete delKeys] ++ tail.2
                threw := false }
            else
              let completedAt := env.iso (env.timeSeq 1)
              let tail := completionTail env msg sub sid filesWithTokens tk.2.1 completedAt db
              { records := tail.1, objects := os, actions := getAct ++ tail.2, threw := false }

/- ------------------------------------------------------------------
   src/backend/src/functions/getDownloadUrl.ts : download resolution
   ------------------------------------------------------------------ -/

/-- getDownloadUrl.ts line 11. -/
def DOWNLOAD_LINK_TTL_SECONDS : Nat := 900

/-- getDownloadUrl.ts line 37: files.find(f => f.downloadToken === token). -/
def findByToken (token : String) : List SubmissionFile → Option SubmissionFile
  | [] => none
  | f :: rest => if f.downloadToken = some token then some f else findByToken token rest

/-- Environment of one download-resolution invocation.  timeSeq gives the
    wall-clock reads by call order; parseDate embeds Date.parse, with none
    standing for NaN; presign embeds getSignedUrl on an object key and a
    TTL; updateOk, courseOk and sendOk say whether the three best-effort
    collaborator calls inside the first-access block succeed (false models
    the corresponding try/catch swallowing a failure). -/
structure DlEnv where
  timeSeq : Nat → Int
  parseDate : String → Option Int
  iso : Int → String
  presign : String → Nat → String
  sesSource : Option String
  updateOk : Bool
  courseOk : Bool
  sendOk : Bool
  courseRow : String → Option CourseRow

/-- HTTP-shaped response of the download handler. -/
structure DlResponse where
  statusCode : Nat
  location : Option String
deriving Repr, DecidableEq

/-- Outcome of one download resolution. -/
structure DlResult where
  response : DlResponse
  records : RecordStore
  actions : List Action
deriving Repr, DecidableEq

/-- Shallow embedding of the download-resolution handler
    (getDownloadUrl.ts lines 13-145, the version with first-access
    tracking).  The expiry test embeds
    (not expiresAt) or (Date.parse(expiresAt) < Date.now()); a NaN parse
    compares false, so an unparseable non-empty expiry is not expired. -/
def getDownloadUrl (env : DlEnv) (submissionId token : Option String)
    (db : RecordStore) : DlResult :=
  if falsyStr submissionId || falsyStr token then
    { response := ⟨400, none⟩, records := db, actions := [] }
  else
    let sid := submissionId.getD ""
    let tok := token.getD ""
    let getAct := [Action.dynGet assignmentsTable sid]
    match lookupRecord db sid with
    | none => { response := ⟨404, none⟩, records := db, actions := getAct }
    | some item =>
      match findByToken tok (item.files.getD []) with
      | none => { response := ⟨404, none⟩, records := db, actions := getAct }
      | some matchedFile =>
        let expired : Bool :=
          match matchedFile.expiresAt with
          | none => true
          | some e =>
            if e.isEmpty then true
            else match env.parseDate e with
              | some t => decide (t < env.timeSeq 0)
              | none => false
        if expired then
          { response := ⟨410, none⟩, records := db, actions := getAct }
        else
          let presignedUrl := env.presign matchedFile.objectKey DOWNLOAD_LINK_TTL_SECONDS
          let acts1 := getAct ++ [Action.s3Presign matchedFile.objectKey DOWNLOAD_LINK_TTL_SECONDS]
          let isFirstAccess := falsyStr item.firstAccessedAt
          if isFirstAccess && !falsyStr item.studentEmail && !falsyStr env.sesSource then
            let accessedAt := env.iso (env.timeSeq 1)
            let db2 := if env.updateOk then
                updateRecord db sid (fun r => { r with firstAccessedAt := some accessedAt })
              else db
            let updActs : List Action :=
              if env.updateOk then [Action.dynUpdate assignmentsTable sid] else []
            let courseId := item.courseId.getD ""
            let courseActs : List Action :=
              if env.courseOk then [Action.dynGet coursesTable courseId] else []
            let sendActs : List Action :=
              if env.sendOk then [Action.sesSend [item.studentEmail.getD ""]] else []
            { response := ⟨302, some presignedUrl⟩, records := db2
              actions := acts1 ++ updActs ++ courseActs ++ sendActs }
          else
            { response := ⟨302, some presignedUrl⟩, records := db, actions := acts1 }

/- ------------------------------------------------------------------
   Completion endpoint: marking PENDING_ARCHIVE and enqueueing the job
   ------------------------------------------------------------------ -/

/-- Modelled from the spec: the deployed completion endpoint
    (src/functions/completeUpload.handler per serverless.ts, whose
    queue-enqueueing revision is not among the provided sources) marks
    the submission PENDING_ARCHIVE and then enqueues the archive job
    message; if enqueueing the job itself fails, it writes
    status ARCHIVE_QUEUE_FAILED with a non-empty lastError, so the record
    is never left PENDING_ARCHIVE with no job enqueued.  enqueueOk says
    whether the queue send succeeds. -/
def completeUploadEnqueue (sid : String) (msg : QueueMessage) (enqueueOk : Bool)
    (db : RecordStore) (queue : List QueueMessage) :
    RecordStore × List QueueMessage :=
  let db1 := updateRecord db sid (fun r => { r with status := some "PENDING_ARCHIVE" })
  if enqueueOk then (db1, queue ++ [msg])
  else
    (updateRecord db1 sid (fun r =>
      { r with status := some "ARCHIVE_QUEUE_FAILED",
               lastError := some "Failed to enqueue archive job" }), queue)

/- ------------------------------------------------------------------
   Helper lemmas
   ------------------------------------------------------------------ -/

theorem lookup_updateRecord (db : RecordStore) (id : String)
    (f : SubmissionRecord → SubmissionRecord) :
    lookupRecord (updateRecord db id f) id = (lookupRecord db id).map f := by
  induction db with
  | nil => rfl
  | cons p rest ih =>
    obtain ⟨k, r⟩ := p
    show lookupRecord ((if k = id then (k, f r) else (k, r)) :: updateRecord rest id f) id =
      Option.map f (lookupRecord ((k, r) :: rest) id)
    by_cases h : k = id
    · rw [if_pos h]
      show (if k = id then some (f r) else lookupRecord (updateRecord rest id f) id) =
        Option.map f (if k = id then some r else lookupRecord rest id)
      rw [if_pos h, if_pos h]
      rfl
    · rw [if_neg h]
      show (if k = id then some r else lookupRecord (updateRecord rest id f) id) =
        Option.map f (if k = id then some r else lookupRecord rest id)
      rw [if_neg h, if_neg h]
      exact ih

theorem falsyStr_some_false {s : String} (h : s ≠ "") : falsyStr (some s) = false := by
  simp only [falsyStr]
  cases hb : s.isEmpty
  · rfl
  · exact absurd ((String.isEmpty_iff s).mp hb) h

/-- Some sample values used by the witness theorems. -/
def blankSub : SubmissionRecord :=
  { submissionId := "", status := none, courseId := none, comment := none,
    studentEmail := none, studentName := none, studentId := none,
    educatorEmails := none, files := none, downloadBaseUrl := none,
    lastError := none, completedAt := none, updatedAt := none,
    firstAccessedAt := none, lastAccessedAt := none }

def sampleEnv : WorkerEnv :=
  { uuidSeq := fun n => "uuid-" ++ toString n
    timeSeq := fun n => 1000 + n
    iso := fun n => "iso-" ++ toString n
    sesSource := some "noreply@icecampus.com"
    zipHeadSize := some 42
    courseRow := fun _ => none }

/- ------------------------------------------------------------------
   C1: idempotence on already-COMPLETED submissions
   ------------------------------------------------------------------ -/

/-- C1: for every queued archive job whose submission record exists with
    status COMPLETED, the worker body returns without any record-store
    update, object-store call or notification send, leaving both stores
    unchanged (its only collaborator call is the initial record read). -/
theorem completed_submission_skipped
    (env : WorkerEnv) (msg : QueueMessage) (db : RecordStore) (os : ObjectStore)
    (sid : String) (sub : SubmissionRecord)
    (hsid : msg.submissionId = some sid) (hne : sid ≠ "")
    (hrec : lookupRecord db sid = some sub)
    (hstatus : sub.status = some "COMPLETED") :
    (processMessage env (some msg) db os).records = db ∧
    (processMessage env (some msg) db os).objects = os ∧
    (processMessage env (some msg) db os).threw = false ∧
    ∀ a ∈ (processMessage env (some msg) db os).actions,
      a.isRecordUpdate = false ∧ a.isObjectStoreCall = false ∧
      a.isNotification = false := by
  have hres : processMessage env (some msg) db os =
      { records := db, objects := os,
        actions := [Action.dynGet assignmentsTable sid], threw := false } := by
    simp [processMessage, hsid, falsyStr_some_false hne, hrec, hstatus]
  refine ⟨by rw [hres], by rw [hres], by rw [hres], ?_⟩
  intro a ha
  rw [hres] at ha
  simp at ha
  subst ha
  exact ⟨rfl, rfl, rfl⟩

def c1Msg : QueueMessage :=
  { submissionId := some "sub-1", requestedAt := some "r", downloadBaseUrl := none }

def c1Sub : SubmissionRecord :=
  { blankSub with submissionId := "sub-1", status := some "COMPLETED" }

def c1Db : RecordStore := [("sub-1", c1Sub)]

theorem completed_submission_skipped_witness :
    c1Msg.submissionId = some "sub-1" ∧ ("sub-1" : String) ≠ "" ∧
    lookupRecord c1Db "sub-1" = some c1Sub ∧ c1Sub.status = some "COMPLETED" ∧
    ((processMessage sampleEnv (some c1Msg) c1Db ["k1"]).records = c1Db ∧
     (processMessage sampleEnv (some c1Msg) c1Db ["k1"]).objects = ["k1"] ∧
     (processMessage sampleEnv (some c1Msg) c1Db ["k1"]).threw = false ∧
     ∀ a ∈ (processMessage sampleEnv (some c1Msg) c1Db ["k1"]).actions,
       a.isRecordUpdate = false ∧ a.isObjectStoreCall = false ∧
       a.isNotification = false) :=
  ⟨rfl, by decide, rfl, rfl,
   completed_submission_skipped sampleEnv c1Msg c1Db ["k1"] "sub-1" c1Sub
     rfl (by decide) rfl rfl⟩

/- ------------------------------------------------------------------
   C4: empty file list marks ARCHIVE_FAILED and stops
   ------------------------------------------------------------------ -/

/-- C4: for every queued job whose submission record exists, is not
    COMPLETED and has an empty file list, the worker writes
    status ARCHIVE_FAILED with lastError "No files available for
    archiving", makes no object-store call and no notification send,
    leaves the object store unchanged, and finishes the message without
    re-raising. -/
theorem empty_files_marks_archive_failed
    (env : WorkerEnv) (msg : QueueMessage) (db : RecordStore) (os : ObjectStore)
    (sid : String) (sub : SubmissionRecord)
    (hsid : msg.submissionId = some sid) (hne : sid ≠ "")
    (hrec : lookupRecord db sid = some sub)
    (hstatus : sub.status ≠ some "COMPLETED")
    (hfiles : sub.files.getD [] = []) :
    processMessage env (some msg) db os =
      { records := updateRecord db sid (fun r =>
          { r with status := some "ARCHIVE_FAILED",
                   lastError := some "No files available for archiving",
                   updatedAt := some (env.iso (env.timeSeq 0)) })
        objects := os
        actions := [Action.dynGet assignmentsTable sid,
                    Action.dynUpdate assignmentsTable sid]
        threw := false } ∧
    lookupRecord (processMessage env (some msg) db os).records sid =
      some { sub with status := some "ARCHIVE_FAILED",
                      lastError := some "No files available for archiving",
                      updatedAt := some (env.iso (env.timeSeq 0)) } := by
  have hres : processMessage env (some msg) db os =
      { records := updateRecord db sid (fun r =>
          { r with status := some "ARCHIVE_FAILED",
                   lastError := some "No files available for archiving",
                   updatedAt := some (env.iso (env.timeSeq 0)) })
        objects := os
        actions := [Action.dynGet assignmentsTable sid,
                    Action.dynUpdate assignmentsTable sid]
        threw := false } := by
    simp [processMessage, hsid, falsyStr_some_false hne, hrec, hstatus, hfiles]
  refine ⟨hres, ?_⟩
  rw [hres]
  simp [lookup_updateRecord, hrec]

def c4Sub : SubmissionRecord :=
  { blankSub with submissionId := "sub-4", status := some "PENDING_ARCHIVE",
                  files := some [] }

def c4Msg : QueueMessage :=
  { submissionId := some "sub-4", requestedAt := some "r", downloadBaseUrl := none }

def c4Db : RecordStore := [("sub-4", c4Sub)]

theorem empty_files_marks_archive_failed_witness :
    c4Msg.submissionId = some "sub-4" ∧ ("sub-4" : String) ≠ "" ∧
    lookupRecord c4Db "sub-4" = some c4Sub ∧
    c4Sub.status ≠ some "COMPLETED" ∧ c4Sub.files.getD [] = [] ∧
    (processMessage sampleEnv (some c4Msg) c4Db ["k1"] =
      { records := updateRecord c4Db "sub-4" (fun r =>
          { r with status := some "ARCHIVE_FAILED",
                   lastError := some "No files available for archiving",
                   updatedAt := some (sampleEnv.iso (sampleEnv.timeSeq 0)) })
        objects := ["k1"]
        actions := [Action.dynGet assignmentsTable "sub-4",
                    Action.dynUpdate assignmentsTable "sub-4"]
        threw := false } ∧
     lookupRecord (processMessage sampleEnv (some c4Msg) c4Db ["k1"]).records "sub-4" =
      some { c4Sub with status := some "ARCHIVE_FAILED",
                        lastError := some "No files available for archiving",
                        updatedAt := some (sampleEnv.iso (sampleEnv.timeSeq 0)) }) :=
  ⟨rfl, by decide, rfl, by decide, rfl,
   empty_files_marks_archive_failed sampleEnv c4Msg c4Db ["k1"] "sub-4" c4Sub
     rfl (by decide) rfl (by decide) rfl⟩

/- ------------------------------------------------------------------
   tokenizeFiles lemmas
   ------------------------------------------------------------------ -/

theorem tokenizeFiles_pointwise (uu : Nat → String) (e : String) :
    ∀ (u : Nat) (fl : List SubmissionFile),
    List.Forall₂ (fun f g =>
      g.fileName = f.fileName ∧ g.contentType = f.contentType ∧
      g.size = f.size ∧ g.objectKey = f.objectKey ∧
      (f.downloadToken.isSome = true → g.downloadToken = f.downloadToken) ∧
      (f.expiresAt.isSome = true → g.expiresAt = f.expiresAt) ∧
      (f.downloadToken = none → ∃ j, g.downloadToken = some (uu j)) ∧
      (f.expiresAt = none → g.expiresAt = some e))
      fl (tokenizeFiles uu e u fl).1 := by
  intro u fl
  induction fl generalizing u with
  | nil => exact List.Forall₂.nil
  | cons f rest ih =>
    simp only [tokenizeFiles]
    refine List.Forall₂.cons ?_ (ih _)
    refine ⟨rfl, rfl, rfl, rfl, ?_, ?_, ?_, ?_⟩
    · intro hs
      cases hd : f.downloadToken with
      | none => rw [hd] at hs; cases hs
      | some t => simp [hd]
    · intro hs
      cases hd : f.expiresAt with
      | none => rw [hd] at hs; cases hs
      | some t => simp [hd]
    · intro hnone
      exact ⟨u, by simp [hnone]⟩
    · intro hnone
      simp [hnone]

theorem tokenizeFiles_flag (uu : Nat → String) (e : String) :
    ∀ (u : Nat) (fl : List SubmissionFile),
    (tokenizeFiles uu e u fl).2.1 =
      fl.any (fun f => falsyStr f.downloadToken || falsyStr f.expiresAt) := by
  intro u fl
  induction fl generalizing u with
  | nil => rfl
  | cons f rest ih =>
    simp only [tokenizeFiles, List.any_cons, ih]

theorem tokenizeFiles_length (uu : Nat → String) (e : String) :
    ∀ (u : Nat) (fl : List SubmissionFile),
    (tokenizeFiles uu e u fl).1.length = fl.length := by
  intro u fl
  induction fl generalizing u with
  | nil => rfl
  | cons f rest ih =>
    simp only [tokenizeFiles, List.length_cons, ih]

theorem tokenizeFiles_objectKeys (uu : Nat → String) (e : String) :
    ∀ (u : Nat) (fl : List SubmissionFile),
    (tokenizeFiles uu e u fl).1.map (fun f => f.objectKey) =
      fl.map (fun f => f.objectKey) := by
  intro u fl
  induction fl generalizing u with
  | nil => rfl
  | cons f rest ih =>
    simp only [tokenizeFiles, List.map_cons, ih]

/- ------------------------------------------------------------------
   C8: token reuse and the filesNeedUpdate flag
   ------------------------------------------------------------------ -/

def c8File : SubmissionFile :=
  { fileName := some "a.txt", contentType := some "text/plain", size := some 10,
    objectKey := "course/student/a.txt", downloadToken := some "",
    expiresAt := some "2026-01-01T00:00:00.000Z" }

/-- C8 counterexample: a file whose downloadToken is present but the
    empty string has no missing value, yet the worker sets the
    filesNeedUpdate flag for it (while still keeping the value), so the
    flag is not set exactly when a value is missing. -/
theorem filesNeedUpdate_flag_counterexample :
    (tokenizeFiles sampleEnv.uuidSeq "dflt" 0 [c8File]).2.1 = true ∧
    c8File.downloadToken.isSome = true ∧ c8File.expiresAt.isSome = true ∧
    (tokenizeFiles sampleEnv.uuidSeq "dflt" 0 [c8File]).1 = [c8File] := by
  refine ⟨rfl, rfl, rfl, ?_⟩
  simp [tokenizeFiles, c8File]

/-- C8 (amended): files whose downloadToken or expiresAt is present keep
    that exact value (never regenerated, even when it is the empty
    string); a file with downloadToken absent gets a fresh uuid value and
    one with expiresAt absent gets the default expiry of 28 days from
    now; the filesNeedUpdate flag is set exactly when at least one file
    has an absent or empty downloadToken or expiresAt. -/
theorem token_reuse_and_update_flag (env : WorkerEnv) (files : List SubmissionFile) :
    List.Forall₂ (fun f g =>
      g.fileName = f.fileName ∧ g.contentType = f.contentType ∧
      g.size = f.size ∧ g.objectKey = f.objectKey ∧
      (f.downloadToken.isSome = true → g.downloadToken = f.downloadToken) ∧
      (f.expiresAt.isSome = true → g.expiresAt = f.expiresAt) ∧
      (f.downloadToken = none → ∃ j, g.downloadToken = some (env.uuidSeq j)) ∧
      (f.expiresAt = none →
        g.expiresAt = some (env.iso (env.timeSeq 0 + DEFAULT_EXPIRY_MS))))
      files
      (tokenizeFiles env.uuidSeq (env.iso (env.timeSeq 0 + DEFAULT_EXPIRY_MS)) 0 files).1
    ∧ ((tokenizeFiles env.uuidSeq (env.iso (env.timeSeq 0 + DEFAULT_EXPIRY_MS)) 0 files).2.1 = true ↔
        ∃ f ∈ files, falsyStr f.downloadToken = true ∨ falsyStr f.expiresAt = true) := by
  refine ⟨tokenizeFiles_pointwise _ _ 0 files, ?_⟩
  rw [tokenizeFiles_flag]
  simp [List.any_eq_true]

/- ------------------------------------------------------------------
   completionTail lemmas
   ------------------------------------------------------------------ -/

theorem isSome_of_falsyStr_false {o : Option String} (h : falsyStr o = false) :
    o.isSome = true := by
  cases o with
  | none => simp [falsyStr] at h
  | some s => rfl

theorem completionTail_records (env : WorkerEnv) (msg : QueueMessage)
    (sub : SubmissionRecord) (sid : String) (finalFiles : List SubmissionFile)
    (flag : Bool) (completedAt : String) (db : RecordStore) :
    (completionTail env msg sub sid finalFiles flag completedAt db).1 =
      updateRecord db sid (fun r =>
        let r1 := { r with status := some "COMPLETED", completedAt := some completedAt,
                           updatedAt := some completedAt, lastError := none }
        if flag then { r1 with files := some finalFiles } else r1) := by
  rfl

theorem mem_ite_sesSend {p : Prop} [Decidable p] (l : List String) :
    ∀ a ∈ (if p then ([] : List Action) else [Action.sesSend l]),
      a.isObjectStoreCall = false := by
  intro a ha
  split at ha
  · exact absurd ha (List.not_mem_nil a)
  · simp at ha; subst ha; rfl

theorem mem_ite_dynGet {p : Prop} [Decidable p] (t k : String) :
    ∀ a ∈ (if p then ([] : List Action) else [Action.dynGet t k]),
      a.isObjectStoreCall = false := by
  intro a ha
  split at ha
  · exact absurd ha (List.not_mem_nil a)
  · simp at ha; subst ha; rfl

theorem completionTail_no_object_calls (env : WorkerEnv) (msg : QueueMessage)
    (sub : SubmissionRecord) (sid : String) (finalFiles : List SubmissionFile)
    (flag : Bool) (completedAt : String) (db : RecordStore) :
    ∀ a ∈ (completionTail env msg sub sid finalFiles flag completedAt db).2,
      a.isObjectStoreCall = false := by
  intro a ha
  simp only [completionTail, List.mem_append, List.mem_singleton] at ha
  rcases ha with (h | h) | h
  · subst h; rfl
  · exact mem_ite_dynGet _ _ a h
  · split at h
    · rcases List.mem_append.mp h with hs | he
      · exact mem_ite_sesSend _ a hs
      · exact mem_ite_sesSend _ a he
    · exact absurd h (List.not_mem_nil a)

/- ------------------------------------------------------------------
   C2: single-file versus multi-file processing
   ------------------------------------------------------------------ -/

/-- C2: for a processed submission (record present, not COMPLETED) with
    exactly one file, the worker makes no object-store call of any kind
    and the record ends with status COMPLETED holding that single file
    with a downloadToken and expiresAt present; with more than one file,
    the record ends with status COMPLETED holding exactly one zip record
    named submissionId.zip with contentType application/zip and an
    object key of the form archives/submissionId-(timestamp).zip, and
    every original object key is gone from the object store. -/
theorem single_vs_multi_archive
    (env : WorkerEnv) (msg : QueueMessage) (db : RecordStore) (os : ObjectStore)
    (sid : String) (sub : SubmissionRecord) (files : List SubmissionFile)
    (hsid : msg.submissionId = some sid) (hne : sid ≠ "")
    (hrec : lookupRecord db sid = some sub)
    (hstatus : sub.status ≠ some "COMPLETED")
    (hfiles : sub.files = some files) :
    (∀ f, files = [f] →
      (∀ a ∈ (processMessage env (some msg) db os).actions,
        a.isObjectStoreCall = false) ∧
      (processMessage env (some msg) db os).objects = os ∧
      ∃ rec2 f2,
        lookupRecord (processMessage env (some msg) db os).records sid = some rec2 ∧
        rec2.status = some "COMPLETED" ∧ rec2.files = some [f2] ∧
        f2.objectKey = f.objectKey ∧ f2.downloadToken.isSome = true ∧
        f2.expiresAt.isSome = true) ∧
    (1 < files.length →
      ∃ rec2 zf,
        lookupRecord (processMessage env (some msg) db os).records sid = some rec2 ∧
        rec2.status = some "COMPLETED" ∧ rec2.files = some [zf] ∧
        zf.fileName = some (sid ++ ".zip") ∧
        zf.contentType = some "application/zip" ∧
        (∃ t, zf.objectKey = "archives/" ++ sid ++ "-" ++ t ++ ".zip") ∧
        zf.downloadToken.isSome = true ∧ zf.expiresAt.isSome = true ∧
        ∀ f ∈ files, f.objectKey ∉ (processMessage env (some msg) db os).objects) := by
  constructor
  · -- single-file case
    intro f hf
    subst hf
    have hone : ¬(1 < (tokenizeFiles env.uuidSeq
        (env.iso (env.timeSeq 0 + DEFAULT_EXPIRY_MS)) 0 [f]).1.length) := by
      rw [tokenizeFiles_length]
      simp
    refine ⟨?_, ?_, ?_⟩
    · intro a ha
      simp [processMessage, hsid, falsyStr_some_false hne, hrec, hstatus,
        hfiles, hone] at ha
      rcases ha with h | h
      · subst h; rfl
      · exact completionTail_no_object_calls _ _ _ _ _ _ _ _ a h
    · simp [processMessage, hsid, falsyStr_some_false hne, hrec, hstatus,
        hfiles, hone]
    · simp [processMessage, hsid, falsyStr_some_false hne, hrec, hstatus,
        hfiles, hone, completionTail_records, lookup_updateRecord]
      by_cases hflag : (tokenizeFiles env.uuidSeq
          (env.iso (env.timeSeq 0 + DEFAULT_EXPIRY_MS)) 0 [f]).2.1 = true
      · rw [if_pos hflag]
        refine ⟨rfl, ⟨f.fileName, f.contentType, f.size, f.objectKey,
          some (f.downloadToken.getD (env.uuidSeq 0)),
          some (f.expiresAt.getD (env.iso (env.timeSeq 0 + DEFAULT_EXPIRY_MS)))⟩,
          ?_, rfl, rfl, rfl⟩
        simp [tokenizeFiles]
      · rw [if_neg hflag]
        have hff1 : falsyStr f.downloadToken = false := by
          cases hb : falsyStr f.downloadToken
          · rfl
          · exact absurd (by simp [tokenizeFiles, hb]) hflag
        have hff2 : falsyStr f.expiresAt = false := by
          cases hb : falsyStr f.expiresAt
          · rfl
          · exact absurd (by simp [tokenizeFiles, hb]) hflag
        exact ⟨rfl, f, rfl, rfl,
          isSome_of_falsyStr_false hff1, isSome_of_falsyStr_false hff2⟩
  · -- multi-file case
    intro hlen
    have hnil : ¬(files = []) := by
      intro h
      subst h
      simp at hlen
    have hcond : 1 < (tokenizeFiles env.uuidSeq
        (env.iso (env.timeSeq 0 + DEFAULT_EXPIRY_MS)) 0 files).1.length := by
      rw [tokenizeFiles_length]
      exact hlen
    simp [processMessage, hsid, falsyStr_some_false hne, hrec, hstatus,
      hfiles, hnil, hcond, completionTail_records, lookup_updateRecord,
      createZipArchive]
    refine ⟨⟨toString (env.timeSeq 1), rfl⟩, ?_⟩
    intro f hfm hor
    have hkey : f.objectKey ∈ (tokenizeFiles env.uuidSeq
        (env.iso (env.timeSeq 0 + DEFAULT_EXPIRY_MS)) 0 files).1.map
          (fun g => g.objectKey) := by
      rw [tokenizeFiles_objectKeys]
      exact List.mem_map_of_mem _ hfm
    simpa using hkey

def c2Files : List SubmissionFile :=
  [⟨some "a.txt", some "text/plain", some 10, "CRS/stu/id/a.txt", none, none⟩,
   ⟨some "sub/b.txt", some "text/plain", some 20, "CRS/stu/id/sub/b.txt", none, none⟩,
   ⟨some "c.txt", some "text/plain", some 30, "CRS/stu/id/c.txt", none, none⟩]

def c2Sub : SubmissionRecord :=
  { blankSub with submissionId := "sub-2", status := some "PENDING_ARCHIVE",
                  files := some c2Files, studentEmail := some "stu@icecampus.com" }

def c2Db : RecordStore := [("sub-2", c2Sub)]

def c2Os : ObjectStore :=
  ["CRS/stu/id/a.txt", "CRS/stu/id/sub/b.txt", "CRS/stu/id/c.txt"]

def c2Msg : QueueMessage :=
  { submissionId := some "sub-2", requestedAt := some "r",
    downloadBaseUrl := some "https://dl.icecampus.com" }

theorem single_vs_multi_archive_witness :
    c2Msg.submissionId = some "sub-2" ∧ ("sub-2" : String) ≠ "" ∧
    lookupRecord c2Db "sub-2" = some c2Sub ∧
    c2Sub.status ≠ some "COMPLETED" ∧ c2Sub.files = some c2Files ∧
    ((∀ f, c2Files = [f] →
      (∀ a ∈ (processMessage sampleEnv (some c2Msg) c2Db c2Os).actions,
        a.isObjectStoreCall = false) ∧
      (processMessage sampleEnv (some c2Msg) c2Db c2Os).objects = c2Os ∧
      ∃ rec2 f2,
        lookupRecord (processMessage sampleEnv (some c2Msg) c2Db c2Os).records "sub-2" = some rec2 ∧
        rec2.status = some "COMPLETED" ∧ rec2.files = some [f2] ∧
        f2.objectKey = f.objectKey ∧ f2.downloadToken.isSome = true ∧
        f2.expiresAt.isSome = true) ∧
    (1 < c2Files.length →
      ∃ rec2 zf,
        lookupRecord (processMessage sampleEnv (some c2Msg) c2Db c2Os).records "sub-2" = some rec2 ∧
        rec2.status = some "COMPLETED" ∧ rec2.files = some [zf] ∧
        zf.fileName = some ("sub-2" ++ ".zip") ∧
        zf.contentType = some "application/zip" ∧
        (∃ t, zf.objectKey = "archives/" ++ "sub-2" ++ "-" ++ t ++ ".zip") ∧
        zf.downloadToken.isSome = true ∧ zf.expiresAt.isSome = true ∧
        ∀ f ∈ c2Files, f.objectKey ∉ (processMessage sampleEnv (some c2Msg) c2Db c2Os).objects)) :=
  ⟨rfl, by decide, rfl, by decide, rfl,
   single_vs_multi_archive sampleEnv c2Msg c2Db c2Os "sub-2" c2Sub c2Files
     rfl (by decide) rfl (by decide) rfl⟩

/- ------------------------------------------------------------------
   C5: archive entry naming
   ------------------------------------------------------------------ -/

def c5Files : List StoredFile :=
  [⟨none, none, some 1, "folder/b.txt"⟩, ⟨none, none, some 2, "folder/c.txt"⟩]

/-- C5 counterexample: in a two-file build in which no file has any
    fileName at all (so no original fileName contains the separator),
    createZipArchive still prefixes every entry with submissionId/,
    because the guard tests fileName with objectKey as fallback and both
    object keys contain the separator. -/
theorem zip_naming_counterexample :
    (∀ f ∈ c5Files, f.fileName = none) ∧
    (createZipArchive "s1" "archives/s1-7.zip" c5Files (some 9) []).entries =
      ["s1/folder/b.txt", "s1/folder/c.txt"] := by
  constructor
  · decide
  · decide

theorem isEmpty_false_of_ne {s : String} (h : s ≠ "") : s.isEmpty = false := by
  cases hb : s.isEmpty
  · rfl
  · exact absurd ((String.isEmpty_iff s).mp hb) h

/-- C5 (amended): for a non-empty submissionId, archive entry names are
    prefixed with submissionId/ if and only if at least one file's
    effective name — its fileName, or its objectKey when fileName is
    absent — contains the separator; every entry is that effective name,
    uniformly prefixed or uniformly bare. -/
theorem zip_entry_naming (sid : String) (hne : sid ≠ "") (files : List StoredFile) :
    (hasNestedFolders files = true ↔
      ∃ f ∈ files, (effectiveName f).data.contains '/' = true) ∧
    zipEntryNames sid files =
      (if hasNestedFolders files then
        files.map (fun f => sid ++ "/" ++ effectiveName f)
       else files.map (fun f => effectiveName f)) := by
  constructor
  · simp [hasNestedFolders, List.any_eq_true]
  · by_cases h : hasNestedFolders files = true
    · simp [zipEntryNames, zipPfx, h, entryName, isEmpty_false_of_ne hne]
    · simp [zipEntryNames, zipPfx, h, entryName]

def c5MixedFiles : List StoredFile :=
  [⟨some "x/y.txt", none, some 1, "k1"⟩, ⟨some "z.txt", none, some 2, "k2"⟩]

theorem zip_entry_naming_witness :
    ("s9" : String) ≠ "" ∧
    ((hasNestedFolders c5MixedFiles = true ↔
      ∃ f ∈ c5MixedFiles, (effectiveName f).data.contains '/' = true) ∧
     zipEntryNames "s9" c5MixedFiles =
      (if hasNestedFolders c5MixedFiles then
        c5MixedFiles.map (fun f => "s9" ++ "/" ++ effectiveName f)
       else c5MixedFiles.map (fun f => effectiveName f))) :=
  ⟨by decide, zip_entry_naming "s9" (by decide) c5MixedFiles⟩

/- ------------------------------------------------------------------
   C9: archive size and its fallback
   ------------------------------------------------------------------ -/

/-- C9 counterexample: a non-empty input list whose only file has no
    recorded size makes the fallback size zero, so the fallback is not
    "never zero when the input file list is non-empty". -/
theorem archive_size_fallback_counterexample :
    archiveSizeResult none [⟨none, none, none, "k"⟩] = 0 ∧
    ([⟨none, none, none, "k"⟩] : List StoredFile) ≠ [] := by
  constructor
  · rfl
  · decide

theorem foldl_add_sizes (g : StoredFile → Nat) :
    ∀ (l : List StoredFile) (a : Nat),
      l.foldl (fun acc f => acc + g f) a = a + (l.map g).sum := by
  intro l
  induction l with
  | nil => intro a; simp
  | cons x rest ih =>
    intro a
    simp [List.foldl_cons, ih, Nat.add_assoc]

theorem sum_pos_iff_exists (l : List Nat) : 0 < l.sum ↔ ∃ x ∈ l, 0 < x := by
  induction l with
  | nil => simp
  | cons x rest ih => simp [add_pos_iff, ih, Nat.pos_iff_ne_zero]

/-- C9 (amended): the size createZipArchive records equals the confirmed
    ContentLength read back from the store when that is available;
    otherwise it is the sum of the original sizes with absent sizes
    counted as zero, and that fallback is positive exactly when some
    input file has a positive recorded size (so it can be zero for a
    non-empty list whose sizes are all absent or zero). -/
theorem archive_size_result_spec (files : List StoredFile) :
    (∀ n, archiveSizeResult (some n) files = n) ∧
    archiveSizeResult none files = (files.map (fun f => f.size.getD 0)).sum ∧
    (0 < archiveSizeResult none files ↔ ∃ f ∈ files, 0 < f.size.getD 0) := by
  have hsum : archiveSizeResult none files =
      (files.map (fun f => f.size.getD 0)).sum := by
    simp [archiveSizeResult, foldl_add_sizes]
  refine ⟨fun n => rfl, hsum, ?_⟩
  rw [hsum, sum_pos_iff_exists]
  simp

/- ------------------------------------------------------------------
   C3: download resolution status codes
   ------------------------------------------------------------------ -/

/-- C3: for a download-resolution request on an existing submission, an
    unmatched token yields 404; a matched token whose parseable expiry is
    strictly in the past yields 410 (the handler never consults the
    object store for this, so the answer is Expired regardless of object
    existence); a matched token with a parseable expiry not in the past
    yields a 302 redirect to the delegated retrieval URL minted for that
    file's objectKey with the 15-minute TTL. -/
theorem download_resolution_statuses
    (env : DlEnv) (db : RecordStore) (sid tok : String) (item : SubmissionRecord)
    (hsne : sid ≠ "") (htne : tok ≠ "")
    (hrec : lookupRecord db sid = some item) :
    (findByToken tok (item.files.getD []) = none →
      (getDownloadUrl env (some sid) (some tok) db).response = ⟨404, none⟩) ∧
    (∀ mf e t, findByToken tok (item.files.getD []) = some mf →
      mf.expiresAt = some e → e.isEmpty = false →
      env.parseDate e = some t → t < env.timeSeq 0 →
      (getDownloadUrl env (some sid) (some tok) db).response = ⟨410, none⟩) ∧
    (∀ mf e t, findByToken tok (item.files.getD []) = some mf →
      mf.expiresAt = some e → e.isEmpty = false →
      env.parseDate e = some t → ¬(t < env.timeSeq 0) →
      (getDownloadUrl env (some sid) (some tok) db).response =
        ⟨302, some (env.presign mf.objectKey DOWNLOAD_LINK_TTL_SECONDS)⟩) ∧
    DOWNLOAD_LINK_TTL_SECONDS = 15 * 60 := by
  refine ⟨?_, ?_, ?_, rfl⟩
  · intro hnone
    simp [getDownloadUrl, falsyStr_some_false hsne, falsyStr_some_false htne,
      hrec, hnone]
  · intro mf e t hmf he hie hp ht
    simp [getDownloadUrl, falsyStr_some_false hsne, falsyStr_some_false htne,
      hrec, hmf, he, hie, hp, ht]
  · intro mf e t hmf he hie hp hnt
    simp only [getDownloadUrl, falsyStr_some_false hsne, falsyStr_some_false htne,
      Bool.or_self, Bool.false_eq_true, if_false, Option.getD_some]
    rw [hrec]
    simp only [hmf, he, hie, hp]
    rw [if_neg (by simp [hnt])]
    split <;> rfl

def dlEnv : DlEnv :=
  { timeSeq := fun n => 100 + n
    parseDate := fun s =>
      if s = "exp-50" then some 50 else if s = "exp-200" then some 200 else none
    iso := fun t => "iso" ++ toString t
    presign := fun k n => "signed-" ++ k ++ "-" ++ toString n
    sesSource := some "noreply@icecampus.com"
    updateOk := true
    courseOk := true
    sendOk := true
    courseRow := fun _ => none }

def c3File : SubmissionFile :=
  ⟨some "a.txt", some "text/plain", some 10, "CRS/stu/id/a.txt",
   some "tok-live", some "exp-200"⟩

def c3FileOld : SubmissionFile :=
  ⟨some "b.txt", some "text/plain", some 20, "CRS/stu/id/b.txt",
   some "tok-old", some "exp-50"⟩

def c3Sub : SubmissionRecord :=
  { blankSub with submissionId := "sub-3", status := some "COMPLETED",
                  files := some [c3File, c3FileOld],
                  firstAccessedAt := some "already" }

def c3Db : RecordStore := [("sub-3", c3Sub)]

theorem download_resolution_statuses_witness :
    ("sub-3" : String) ≠ "" ∧ ("tok-live" : String) ≠ "" ∧
    lookupRecord c3Db "sub-3" = some c3Sub ∧
    ((findByToken "tok-live" (c3Sub.files.getD []) = none →
      (getDownloadUrl dlEnv (some "sub-3") (some "tok-live") c3Db).response = ⟨404, none⟩) ∧
    (∀ mf e t, findByToken "tok-live" (c3Sub.files.getD []) = some mf →
      mf.expiresAt = some e → e.isEmpty = false →
      dlEnv.parseDate e = some t → t < dlEnv.timeSeq 0 →
      (getDownloadUrl dlEnv (some "sub-3") (some "tok-live") c3Db).response = ⟨410, none⟩) ∧
    (∀ mf e t, findByToken "tok-live" (c3Sub.files.getD []) = some mf →
      mf.expiresAt = some e → e.isEmpty = false →
      dlEnv.parseDate e = some t → ¬(t < dlEnv.timeSeq 0) →
      (getDownloadUrl dlEnv (some "sub-3") (some "tok-live") c3Db).response =
        ⟨302, some (dlEnv.presign mf.objectKey DOWNLOAD_LINK_TTL_SECONDS)⟩) ∧
    DOWNLOAD_LINK_TTL_SECONDS = 15 * 60) :=
  ⟨by decide, by decide, rfl,
   download_resolution_statuses dlEnv c3Db "sub-3" "tok-live" c3Sub
     (by decide) (by decide) rfl⟩

/- ------------------------------------------------------------------
   C10: missing or empty expiry is treated as expired
   ------------------------------------------------------------------ -/

/-- C10: a file record that matches the presented token but whose
    expiresAt is missing or the empty string resolves to 410, never to a
    302 redirect and never to 404, even though the token matched. -/
theorem missing_expiry_treated_as_expired
    (env : DlEnv) (db : RecordStore) (sid tok : String)
    (item : SubmissionRecord) (mf : SubmissionFile)
    (hsne : sid ≠ "") (htne : tok ≠ "")
    (hrec : lookupRecord db sid = some item)
    (hmf : findByToken tok (item.files.getD []) = some mf)
    (hexp : mf.expiresAt = none ∨ mf.expiresAt = some "") :
    (getDownloadUrl env (some sid) (some tok) db).response = ⟨410, none⟩ := by
  rcases hexp with h | h
  · simp [getDownloadUrl, falsyStr_some_false hsne, falsyStr_some_false htne,
      hrec, hmf, h]
  · simp only [getDownloadUrl, falsyStr_some_false hsne, falsyStr_some_false htne,
      Bool.or_self, Bool.false_eq_true, if_false, Option.getD_some]
    rw [hrec]
    have hemp : ("" : String).isEmpty = true := rfl
    simp [hmf, h, hemp]

def c10File : SubmissionFile :=
  ⟨some "a.txt", some "text/plain", some 10, "CRS/stu/id/a.txt",
   some "tok-noexp", none⟩

def c10Sub : SubmissionRecord :=
  { blankSub with submissionId := "sub-10", status := some "COMPLETED",
                  files := some [c10File] }

def c10Db : RecordStore := [("sub-10", c10Sub)]

theorem missing_expiry_treated_as_expired_witness :
    ("sub-10" : String) ≠ "" ∧ ("tok-noexp" : String) ≠ "" ∧
    lookupRecord c10Db "sub-10" = some c10Sub ∧
    findByToken "tok-noexp" (c10Sub.files.getD []) = some c10File ∧
    (c10File.expiresAt = none ∨ c10File.expiresAt = some "") ∧
    (getDownloadUrl dlEnv (some "sub-10") (some "tok-noexp") c10Db).response = ⟨410, none⟩ :=
  ⟨by decide, by decide, rfl, by decide, Or.inl rfl,
   missing_expiry_treated_as_expired dlEnv c10Db "sub-10" "tok-noexp" c10Sub c10File
     (by decide) (by decide) rfl (by decide) (Or.inl rfl)⟩

/- ------------------------------------------------------------------
   C7: access bookkeeping on successful resolution
   ------------------------------------------------------------------ -/

def c7File : SubmissionFile :=
  ⟨some "a.txt", some "text/plain", some 10, "CRS/stu/id/a.txt",
   some "tok-7", some "exp-200"⟩

def c7Sub : SubmissionRecord :=
  { blankSub with submissionId := "sub-7", status := some "COMPLETED",
                  courseId := some "CRS", studentEmail := some "stu@icecampus.com",
                  files := some [c7File] }

def c7Db : RecordStore := [("sub-7", c7Sub)]

/-- C7 counterexample: a fully successful first resolution (302, with
    firstAccessedAt freshly set) leaves lastAccessedAt untouched (still
    absent), so the handler does not update lastAccessedAt to the
    current time on every successful resolution. -/
theorem lastAccessedAt_never_updated_counterexample :
    (getDownloadUrl dlEnv (some "sub-7") (some "tok-7") c7Db).response.statusCode = 302 ∧
    lookupRecord (getDownloadUrl dlEnv (some "sub-7") (some "tok-7") c7Db).records "sub-7" =
      some { c7Sub with firstAccessedAt := some "iso101" } ∧
    c7Sub.lastAccessedAt = none ∧
    ((lookupRecord (getDownloadUrl dlEnv (some "sub-7") (some "tok-7") c7Db).records
        "sub-7").map (fun r => r.lastAccessedAt)) = some none := by
  refine ⟨?_, ?_, rfl, ?_⟩ <;> decide

/-- C7 (amended): on a successful resolution the response is the 302
    redirect to the minted URL regardless of whether the best-effort
    side-effect calls succeed; when firstAccessedAt was absent or empty
    AND the record has a studentEmail AND a sender address is
    configured, a successful bookkeeping update sets firstAccessedAt to
    the current time and a successful send emits the one-time student
    notification; otherwise the record store is untouched; and in all
    cases lastAccessedAt is left exactly as it was. -/
theorem first_access_side_effects
    (env : DlEnv) (db : RecordStore) (sid tok : String)
    (item : SubmissionRecord) (mf : SubmissionFile) (e : String) (t : Int)
    (hsne : sid ≠ "") (htne : tok ≠ "")
    (hrec : lookupRecord db sid = some item)
    (hmf : findByToken tok (item.files.getD []) = some mf)
    (he : mf.expiresAt = some e) (hie : e.isEmpty = false)
    (hp : env.parseDate e = some t) (hnt : ¬(t < env.timeSeq 0)) :
    (getDownloadUrl env (some sid) (some tok) db).response =
      ⟨302, some (env.presign mf.objectKey DOWNLOAD_LINK_TTL_SECONDS)⟩ ∧
    (falsyStr item.firstAccessedAt = true → falsyStr item.studentEmail = false →
     falsyStr env.sesSource = false →
      ((env.updateOk = true →
        lookupRecord (getDownloadUrl env (some sid) (some tok) db).records sid =
          some { item with firstAccessedAt := some (env.iso (env.timeSeq 1)) }) ∧
       (env.sendOk = true →
        Action.sesSend [item.studentEmail.getD ""] ∈
          (getDownloadUrl env (some sid) (some tok) db).actions))) ∧
    ((falsyStr item.firstAccessedAt = false ∨ falsyStr item.studentEmail = true ∨
      falsyStr env.sesSource = true) →
      (getDownloadUrl env (some sid) (some tok) db).records = db) ∧
    (∀ r, lookupRecord (getDownloadUrl env (some sid) (some tok) db).records sid =
        some r → r.lastAccessedAt = item.lastAccessedAt) := by
  have hb1 := falsyStr_some_false hsne
  have hb2 := falsyStr_some_false htne
  refine ⟨?_, ?_, ?_, ?_⟩
  · simp only [getDownloadUrl, hb1, hb2, Bool.or_self, Bool.false_eq_true,
      if_false, Option.getD_some]
    rw [hrec]
    simp only [hmf, he, hie, hp]
    rw [if_neg (by simp [hnt])]
    split <;> rfl
  · intro hfa hse hss
    constructor
    · intro hu
      simp [getDownloadUrl, hb1, hb2, hrec, hmf, he, hie, hp, hnt,
        hfa, hse, hss, hu, lookup_updateRecord]
    · intro hsend
      simp [getDownloadUrl, hb1, hb2, hrec, hmf, he, hie, hp, hnt,
        hfa, hse, hss, hsend]
  · intro hdis
    rcases hdis with h | h | h <;>
      simp [getDownloadUrl, hb1, hb2, hrec, hmf, he, hie, hp, hnt, h]
  · intro r hr
    by_cases hc : (falsyStr item.firstAccessedAt && !falsyStr item.studentEmail &&
        !falsyStr env.sesSource) = true
    · by_cases hu : env.updateOk = true
      · simp [getDownloadUrl, hb1, hb2, hrec, hmf, he, hie, hp, hnt,
          hc, hu, lookup_updateRecord] at hr
        rw [← hr]
      · simp [getDownloadUrl, hb1, hb2, hrec, hmf, he, hie, hp, hnt,
          hc, hu] at hr
        rw [← hr]
    · simp [getDownloadUrl, hb1, hb2, hrec, hmf, he, hie, hp, hnt, hc] at hr
      rw [← hr]

theorem first_access_side_effects_witness :
    ("sub-7" : String) ≠ "" ∧ ("tok-7" : String) ≠ "" ∧
    lookupRecord c7Db "sub-7" = some c7Sub ∧
    findByToken "tok-7" (c7Sub.files.getD []) = some c7File ∧
    c7File.expiresAt = some "exp-200" ∧ ("exp-200" : String).isEmpty = false ∧
    dlEnv.parseDate "exp-200" = some 200 ∧ ¬((200 : Int) < dlEnv.timeSeq 0) ∧
    ((getDownloadUrl dlEnv (some "sub-7") (some "tok-7") c7Db).response =
      ⟨302, some (dlEnv.presign c7File.objectKey DOWNLOAD_LINK_TTL_SECONDS)⟩ ∧
    (falsyStr c7Sub.firstAccessedAt = true → falsyStr c7Sub.studentEmail = false →
     falsyStr dlEnv.sesSource = false →
      ((dlEnv.updateOk = true →
        lookupRecord (getDownloadUrl dlEnv (some "sub-7") (some "tok-7") c7Db).records "sub-7" =
          some { c7Sub with firstAccessedAt := some (dlEnv.iso (dlEnv.timeSeq 1)) }) ∧
       (dlEnv.sendOk = true →
        Action.sesSend [c7Sub.studentEmail.getD ""] ∈
          (getDownloadUrl dlEnv (some "sub-7") (some "tok-7") c7Db).actions))) ∧
    ((falsyStr c7Sub.firstAccessedAt = false ∨ falsyStr c7Sub.studentEmail = true ∨
      falsyStr dlEnv.sesSource = true) →
      (getDownloadUrl dlEnv (some "sub-7") (some "tok-7") c7Db).records = c7Db) ∧
    (∀ r, lookupRecord (getDownloadUrl dlEnv (some "sub-7") (some "tok-7") c7Db).records
        "sub-7" = some r → r.lastAccessedAt = c7Sub.lastAccessedAt)) :=
  ⟨by decide, by decide, rfl, by decide, rfl, by decide, by decide, by decide,
   first_access_side_effects dlEnv c7Db "sub-7" "tok-7" c7Sub c7File "exp-200" 200
     (by decide) (by decide) rfl (by decide) rfl (by decide) (by decide) (by decide)⟩

/- ------------------------------------------------------------------
   C6: orphan prevention when enqueueing fails
   ------------------------------------------------------------------ -/

/-- C6: after the completion action marks the record PENDING_ARCHIVE,
    either the job is enqueued and the record reads PENDING_ARCHIVE, or
    enqueueing failed and the record reads ARCHIVE_QUEUE_FAILED with a
    non-empty lastError; no outcome leaves the record PENDING_ARCHIVE
    with the queue unchanged. -/
theorem orphan_prevention (sid : String) (msg : QueueMessage) (enqueueOk : Bool)
    (db : RecordStore) (queue : List QueueMessage) (sub : SubmissionRecord)
    (hrec : lookupRecord db sid = some sub) :
    (enqueueOk = true →
      lookupRecord (completeUploadEnqueue sid msg enqueueOk db queue).1 sid =
        some { sub with status := some "PENDING_ARCHIVE" } ∧
      (completeUploadEnqueue sid msg enqueueOk db queue).2 = queue ++ [msg]) ∧
    (enqueueOk = false →
      ∃ err, lookupRecord (completeUploadEnqueue sid msg enqueueOk db queue).1 sid =
        some { sub with status := some "ARCHIVE_QUEUE_FAILED", lastError := some err } ∧
        err ≠ "" ∧
        (completeUploadEnqueue sid msg enqueueOk db queue).2 = queue) ∧
    ¬(((lookupRecord (completeUploadEnqueue sid msg enqueueOk db queue).1 sid).map
        (fun r => r.status)) = some (some "PENDING_ARCHIVE") ∧
      (completeUploadEnqueue sid msg enqueueOk db queue).2 = queue) := by
  cases enqueueOk with
  | false =>
    refine ⟨fun h => absurd h (by decide), fun _ => ?_, ?_⟩
    · refine ⟨"Failed to enqueue archive job", ?_, by decide, rfl⟩
      simp [completeUploadEnqueue, lookup_updateRecord, hrec]
    · rintro ⟨habs, -⟩
      simp [completeUploadEnqueue, lookup_updateRecord, hrec] at habs
  | true =>
    refine ⟨fun _ => ⟨?_, rfl⟩, fun h => absurd h (by decide), ?_⟩
    · simp [completeUploadEnqueue, lookup_updateRecord, hrec]
    · rintro ⟨-, habs⟩
      have hlen := congrArg List.length habs
      simp [completeUploadEnqueue] at hlen

def c6Sub : SubmissionRecord :=
  { blankSub with submissionId := "sub-6", status := some "PENDING" }

def c6Db : RecordStore := [("sub-6", c6Sub)]

def c6Msg : QueueMessage :=
  { submissionId := some "sub-6", requestedAt := some "2026-01-01T00:00:00.000Z",
    downloadBaseUrl := some "https://dl.icecampus.com" }

theorem orphan_prevention_witness :
    lookupRecord c6Db "sub-6" = some c6Sub ∧
    ((false = true →
      lookupRecord (completeUploadEnqueue "sub-6" c6Msg false c6Db []).1 "sub-6" =
        some { c6Sub with status := some "PENDING_ARCHIVE" } ∧
      (completeUploadEnqueue "sub-6" c6Msg false c6Db []).2 = [] ++ [c6Msg]) ∧
    (false = false →
      ∃ err, lookupRecord (completeUploadEnqueue "sub-6" c6Msg false c6Db []).1 "sub-6" =
        some { c6Sub with status := some "ARCHIVE_QUEUE_FAILED", lastError := some err } ∧
        err ≠ "" ∧
        (completeUploadEnqueue "sub-6" c6Msg false c6Db []).2 = []) ∧
    ¬(((lookupRecord (completeUploadEnqueue "sub-6" c6Msg false c6Db []).1 "sub-6").map
        (fun r => r.status)) = some (some "PENDING_ARCHIVE") ∧
      (completeUploadEnqueue "sub-6" c6Msg false c6Db []).2 = [])) :=
  ⟨rfl, orphan_prevention "sub-6" c6Msg false c6Db [] c6Sub rfl⟩

end Icebox
